import Mathlib

/-!
Verification of the datest output-parsing and result-classification engine
(`src/datest/assertions.py`, `src/datest/executor.py`, `src/datest/models.py`).

The Python code is shallowly embedded: strings are `List Char` (obtained from
Lean `String` literals via `.data`), Python's `json.loads` is an abstract
oracle parameter (it is library code, not part of this repository), and a
Python exception that can escape a function is represented by `Except`.
-/

namespace Datest

/-- A JSON value as produced by Python's `json` module.  Numbers are modelled
as integers, which covers every field the parser reads (`line`, `passed`,
`message`, `source`); string payloads are `List Char` to match the string
model used throughout this development. -/
inductive Json where
  | null : Json
  | bool (b : Bool) : Json
  | num (n : Int) : Json
  | str (s : List Char) : Json
  | arr (elems : List Json) : Json
  | obj (entries : List (String × Json)) : Json

/-- The Python exceptions that can escape `DanaAssertionParser.parse_output`:
the `try` block of `_parse_json_output` catches only `json.JSONDecodeError`
and `KeyError`, so a `TypeError` (iterating a non-iterable) or an
`AttributeError` (calling `.get` on a value with no such method) propagates
to the caller. -/
inductive PyExc where
  | typeError : PyExc
  | attributeError : PyExc
deriving DecidableEq, Repr

/-- Embeds the `DanaAssertion` dataclass of `src/datest/models.py`.  The
dataclass's fields are only annotated, never checked, so a value taken from a
decoded JSON document is stored unchanged whatever its type; the fields are
therefore `Json`-valued, and the text-mode parser wraps the `int`/`str`/`bool`
values it builds in the corresponding constructors (`source_line = None`
becomes `Json.null`). -/
structure DanaAssertion where
  line_number : Json
  assertion_type : String
  message : Json
  passed : Json
  source_line : Json

/-! String helpers mirroring the Python string operations used by the
parser.  Python `str` values are modelled as `List Char`. -/

/-- Whitespace as recognised by Python's `str.strip()` and by `\s` in the
parser's regular expressions.  The inputs exercised here are ASCII text plus
the indicator emoji, so the ASCII whitespace characters suffice; the extra
Unicode space characters Python also accepts never occur in any input or
pattern considered in this development. -/
def isPySpace (c : Char) : Bool :=
  c == ' ' || c == '\t' || c == '\n' || c == '\r' || c == '\x0b' || c == '\x0c'

/-- Python `str.strip()`: drop leading and trailing whitespace. -/
def pyStrip (s : List Char) : List Char :=
  ((s.dropWhile isPySpace).reverse.dropWhile isPySpace).reverse

/-- Python `str.strip(chars)`: drop every leading and trailing character that
belongs to `cs` (note: all of them, not just one). -/
def pyStripChars (cs : List Char) (s : List Char) : List Char :=
  ((s.dropWhile (fun c => cs.contains c)).reverse.dropWhile (fun c => cs.contains c)).reverse

/-- Whether `s` starts with `pat`. -/
def startsWith : List Char → List Char → Bool
  | _, [] => true
  | [], _ :: _ => false
  | c :: cs, p :: ps => c == p && startsWith cs ps

/-- Python's `pat in s` substring test. -/
def containsSub : List Char → List Char → Bool
  | [], pat => startsWith [] pat
  | s@(_ :: t), pat => startsWith s pat || containsSub t pat

/-- Index of the first occurrence of character `c`, if any (used for
`output.find` on a single character). -/
def idxOfChar (c : Char) : List Char → Option Nat
  | [] => none
  | x :: xs => if x == c then some 0 else (idxOfChar c xs).map (· + 1)

/-- Python `s.find(pat)`: index of the first occurrence of `pat`, else `-1`. -/
def pyFind (s pat : List Char) : Int :=
  go s
where
  go : List Char → Int
    | [] => if startsWith [] pat then 0 else -1
    | x :: xs =>
      if startsWith (x :: xs) pat then 0
      else let r := go xs; if r ≥ 0 then r + 1 else -1

/-- Python `s.rfind(c)` for a single character: index of the last occurrence,
else `-1`. -/
def pyRfindChar (c : Char) : List Char → Int
  | [] => -1
  | x :: xs =>
    let r := pyRfindChar c xs
    if r ≥ 0 then r + 1 else if x == c then 0 else -1

/-- Python `s.split('\n')`: split on every newline, keeping empty pieces
(`"".split('\n')` is `[""]`). -/
def splitNl : List Char → List (List Char)
  | [] => [[]]
  | c :: rest =>
    let tail := splitNl rest
    if c == '\n' then [] :: tail
    else
      match tail with
      | [] => [[c]]
      | piece :: more => (c :: piece) :: more

/-- Numeric value of a digit string, as Python's `int` on a `\d+` capture
(`"007"` becomes `7`). -/
def natOfDigits (ds : List Char) : Nat :=
  ds.foldl (fun acc c => 10 * acc + (c.toNat - '0'.toNat)) 0

/-- Length of the leading whitespace run. -/
def leadingWsCount (s : List Char) : Nat :=
  (s.takeWhile isPySpace).length

/-- Length of the leading digit run. -/
def leadingDigits (s : List Char) : List Char :=
  s.takeWhile (fun c => c.isDigit)

/-! Hand-compiled forms of the three regular expressions of
`DanaAssertionParser` and of the inline pattern `Line\s+(\d+)`.  Each search
function implements Python's `re.search` semantics for its specific pattern:
the leftmost starting position wins, and at a given position alternatives and
optional groups are tried in Python's backtracking order.  Where two adjacent
greedy pieces range over disjoint character classes (for example `\s+` before
`\d+`, or `\d+` before a literal `:`), backtracking can never produce a match
that the maximal-run reading misses, so the maximal run is taken directly. -/

/-- Strip the literal `pat` from the front of `s`, returning the rest. -/
def stripLit (pat s : List Char) : Option (List Char) :=
  if startsWith s pat then some (s.drop pat.length) else none

/-- Match `\s+(\d+)` at the start of `s`: at least one whitespace character,
then at least one digit; returns the digit capture and the rest. -/
def wsDigits (s : List Char) : Option (List Char × List Char) :=
  let m := leadingWsCount s
  if m == 0 then none
  else
    let r := s.drop m
    let ds := leadingDigits r
    if ds.isEmpty then none else some (ds, r.drop ds.length)

/-- Match the optional group `(?:Line\s+(\d+):\s*)?` at the start of `s`,
returning the captured number and the rest; `none` when the group does not
match here (the caller then proceeds without the prefix, which is exactly the
backtracking behaviour of the greedy `?`). -/
def linePrefixAt (s : List Char) : Option (Nat × List Char) := do
  let r ← stripLit ("Line").data s
  let (ds, r) ← wsDigits r
  let r ← stripLit (":").data r
  pure (natOfDigits ds, r.drop (leadingWsCount r))

/-- Match `Line\s+(\d+)` at the start of `s`, returning the captured number. -/
def lineNumAt (s : List Char) : Option Nat := do
  let r ← stripLit ("Line").data s
  let (ds, _) ← wsDigits r
  pure (natOfDigits ds)

/-- `re.search`: try the position matcher `f` at every suffix, leftmost
first (the final empty suffix included). -/
def searchAt {α : Type} (f : List Char → Option α) : List Char → Option α
  | [] => f []
  | c :: rest => (f (c :: rest)).orElse (fun _ => searchAt f rest)

/-- `re.search(r'Line\s+(\d+)', line)`, as used by `_parse_assertion_line`
to pick an explicit line number out of a line. -/
def searchLineNum (s : List Char) : Option Nat :=
  searchAt lineNumAt s

/-- Match `.+` at the start of `t` (greedy, `.` excludes newlines): the
maximal newline-free run, which must be non-empty. -/
def dotPlusAt (t : List Char) : Option (List Char) :=
  let run := t.takeWhile (fun c => c != '\n')
  if run.isEmpty then none else some run

/-- Match `\s*(.+)` at the start of `t`, returning the capture.  The greedy
`\s*` first takes the whole leading whitespace run and gives characters back
one at a time until `.+` can match. -/
def wsStarDotPlus (t : List Char) : Option (List Char) :=
  go (leadingWsCount t)
where
  go : Nat → Option (List Char)
    | 0 => dotPlusAt t
    | j + 1 => (dotPlusAt (t.drop (j + 1))).orElse (fun _ => go j)

/-- Match `(Error|Exception)` at the start of `s` (alternatives in order),
returning the matched literal and the rest. -/
def errTypeAt (s : List Char) : Option (String × List Char) :=
  match stripLit ("Error").data s with
  | some r => some ("Error", r)
  | none =>
    match stripLit ("Exception").data s with
    | some r => some ("Exception", r)
    | none => none

/-- ERROR_PATTERN `(?:Line\s+(\d+):\s*)?(Error|Exception):\s*(.+)` tried at
one position: groups 1 (optional line number), 2 (error type) and 3
(message). -/
def errorAt (s : List Char) : Option (Option Nat × String × List Char) :=
  (do
    let (n, r) ← linePrefixAt s
    let (etype, r) ← errTypeAt r
    let r ← stripLit (":").data r
    let g3 ← wsStarDotPlus r
    pure (some n, etype, g3)).orElse
  (fun _ => do
    let (etype, r) ← errTypeAt s
    let r ← stripLit (":").data r
    let g3 ← wsStarDotPlus r
    pure ((none : Option Nat), etype, g3))

/-- `ERROR_PATTERN.search(line)`. -/
def errorPatternSearch (s : List Char) : Option (Option Nat × String × List Char) :=
  searchAt errorAt s

/-- Whether one of the result indicators `failed|passed|==|!=` starts at the
front of `w` (alternatives in Python's order; which one matches does not
affect any capture). -/
def startsWithResultKw (w : List Char) : Bool :=
  startsWith w ("failed").data || startsWith w ("passed").data ||
  startsWith w ("==").data || startsWith w ("!=").data

/-- Match `\s*(?:failed|passed|==|!=)` at the start of `v`: the greedy `\s*`
backtracks, so the pattern succeeds when the keyword starts after any portion
of the leading whitespace run. -/
def kwAfterWs (v : List Char) : Bool :=
  go (leadingWsCount v)
where
  go : Nat → Bool
    | 0 => startsWithResultKw v
    | j + 1 => startsWithResultKw (v.drop (j + 1)) || go j

/-- Match `(.+?)\s*(?:failed|passed|==|!=)` at the start of `rest`: the lazy
`.+?` takes the shortest non-empty newline-free capture after which
`\s*(?:failed|passed|==|!=)` matches. -/
def lazyDotKw : List Char → Option (List Char)
  | [] => none
  | c :: rest =>
    if c == '\n' then none
    else if kwAfterWs rest then some [c]
    else (lazyDotKw rest).map (fun g => c :: g)

/-- Match `\s+(.+?)\s*(?:failed|passed|==|!=)` at the start of `u`: `\s+`
greedily takes the whole whitespace run (at least one character) and
backtracks towards shorter runs while the rest fails. -/
def assertTail (u : List Char) : Option (List Char) :=
  let m := leadingWsCount u
  if m == 0 then none else go u m
where
  go (u : List Char) : Nat → Option (List Char)
    | 0 => none
    | j + 1 => (lazyDotKw (u.drop (j + 1))).orElse (fun _ => go u j)

/-- Match `(assert(?:ion)?)\s+(.+?)\s*(?:failed|passed|==|!=)` at the start
of `r`: the greedy optional `(?:ion)?` first tries `assertion`, falling back
to `assert` when the tail cannot be matched. -/
def assertKwTail (r : List Char) : Option (List Char) :=
  match stripLit ("assertion").data r with
  | some rest =>
    match assertTail rest with
    | some g => some g
    | none => (stripLit ("assert").data r).bind assertTail
  | none => (stripLit ("assert").data r).bind assertTail

/-- ASSERT_PATTERN
`(?:Line\s+(\d+):\s*)?(assert(?:ion)?)\s+(.+?)\s*(?:failed|passed|==|!=)`
tried at one position: groups 1 (optional line number) and 3 (expression). -/
def assertAt (s : List Char) : Option (Option Nat × List Char) :=
  (do
    let (n, r) ← linePrefixAt s
    let g3 ← assertKwTail r
    pure (some n, g3)).orElse
  (fun _ => (assertKwTail s).map (fun g3 => ((none : Option Nat), g3)))

/-- `ASSERT_PATTERN.search(line)`. -/
def assertPatternSearch (s : List Char) : Option (Option Nat × List Char) :=
  searchAt assertAt s

/-! The parser class `DanaAssertionParser` of `src/datest/assertions.py`,
embedded as plain functions. -/

/-- `PASS_INDICATORS` of `DanaAssertionParser`. -/
def PASS_INDICATORS : List String := ["✅", "passed", "success", "ok", "PASS"]

/-- `FAIL_INDICATORS` of `DanaAssertionParser`. -/
def FAIL_INDICATORS : List String := ["❌", "failed", "failure", "error", "FAIL", "AssertionError"]

/-- `any(indicator in line for indicator in PASS_INDICATORS)`. -/
def hasPassInd (s : List Char) : Bool :=
  PASS_INDICATORS.any (fun ind => containsSub s ind.data)

/-- `any(indicator in line for indicator in FAIL_INDICATORS)`. -/
def hasFailInd (s : List Char) : Bool :=
  FAIL_INDICATORS.any (fun ind => containsSub s ind.data)

/-- `DanaAssertionParser._parse_assertion_line`. -/
def parseAssertionLine (line : List Char) (defaultLineNum : Nat) : Option DanaAssertion :=
  let passed := hasPassInd line
  let failed := hasFailInd line
  if !(passed || failed) then none
  else
    let lineNumber := (searchLineNum line).getD defaultLineNum
    match assertPatternSearch line with
    | some (g1, g3) =>
      some { line_number := Json.num (g1.getD lineNumber : Nat)
             assertion_type := "assert"
             message := Json.str (pyStrip g3)
             passed := Json.bool (passed && !failed)
             source_line := Json.null }
    | none =>
      some { line_number := Json.num (lineNumber : Nat)
             assertion_type := "assert"
             message := Json.str (pyStrip line)
             passed := Json.bool (passed && !failed)
             source_line := Json.null }

/-- `DanaAssertionParser._parse_log_line`.  Python's `line.find("log(") + 4`
and `line.rfind(")")` are the integer positions `start` and `end`; the slice
`line[start:end]` is taken only when `end > start`, otherwise the message
stays the whole line. -/
def parseLogLine (line : List Char) (defaultLineNum : Nat) : Option DanaAssertion :=
  if containsSub line ("log(").data || containsSub line ("log ").data then
    let message :=
      if containsSub line ("log(").data then
        let start : Int := pyFind line ("log(").data + 4
        let stop : Int := pyRfindChar ')' line
        if stop > start then
          pyStripChars ['"', '\''] (pyStrip ((line.drop start.toNat).take (stop - start).toNat))
        else line
      else line
    some { line_number := Json.num (defaultLineNum : Nat)
           assertion_type := "log"
           message := Json.str message
           passed := Json.bool true
           source_line := Json.null }
  else none

/-- One iteration of the loop in `DanaAssertionParser._parse_text_output`:
strip the line, skip it when blank, otherwise try the assertion pattern and
then the log pattern.  `i` is the zero-based index of the line. -/
def parseTextLine (i : Nat) (line : List Char) : Option DanaAssertion :=
  let line := pyStrip line
  if line.isEmpty then none
  else
    match parseAssertionLine line (i + 1) with
    | some a => some a
    | none => parseLogLine line (i + 1)

/-- `DanaAssertionParser._parse_text_output`. -/
def parseTextOutput (output : List Char) : List DanaAssertion :=
  ((splitNl output).enum).filterMap (fun p => parseTextLine p.1 p.2)

/-- One iteration of the loop in `DanaAssertionParser._parse_error_output`:
strip the line, skip it when blank, otherwise match ERROR_PATTERN and fall
back to the generic `Error`/`Exception` substring test. -/
def parseErrorLine (line : List Char) : Option DanaAssertion :=
  let line := pyStrip line
  if line.isEmpty then none
  else
    match errorPatternSearch line with
    | some (g1, etype, g3) =>
      some { line_number := Json.num (g1.getD 0 : Nat)
             assertion_type := "error"
             message := Json.str (etype.data ++ (": ").data ++ pyStrip g3)
             passed := Json.bool false
             source_line := Json.null }
    | none =>
      if containsSub line ("Error").data || containsSub line ("Exception").data then
        some { line_number := Json.num 0
               assertion_type := "error"
               message := Json.str line
               passed := Json.bool false
               source_line := Json.null }
      else none

/-- `DanaAssertionParser._parse_error_output`. -/
def parseErrorOutput (errorOutput : List Char) : List DanaAssertion :=
  (splitNl errorOutput).filterMap parseErrorLine

/-- `DanaAssertionParser._parse_generic_results`. -/
def parseGenericResults (output : List Char) : List DanaAssertion :=
  if hasPassInd output then
    [{ line_number := Json.num 0
       assertion_type := "result"
       message := Json.str ("Test passed").data
       passed := Json.bool true
       source_line := Json.null }]
  else if hasFailInd output then
    [{ line_number := Json.num 0
       assertion_type := "result"
       message := Json.str ("Test failed").data
       passed := Json.bool false
       source_line := Json.null }]
  else []

/-! The JSON branch `DanaAssertionParser._parse_json_output`.  Python's
`json.loads` is library code, so it is abstracted as an oracle; the slice it
is applied to always starts at a `{`, and a successful decode of such a
document is necessarily a JSON object, so the oracle returns the decoded
object's entries (`none` models a raised `json.JSONDecodeError`, which the
source catches). -/

/-- Abstract `json.loads` restricted to documents that begin at a `{`. -/
def JsonOracle : Type := List Char → Option (List (String × Json))

/-- Python `key in data` on the decoded object. -/
def hasKey (data : List (String × Json)) (key : String) : Bool :=
  data.any (fun kv => kv.1 == key)

/-- Python `data[key]` on the decoded object (the callers guard with
`key in data`, so the default is never observed). -/
def objGet (data : List (String × Json)) (key : String) : Json :=
  match data.find? (fun kv => kv.1 == key) with
  | some kv => kv.2
  | none => Json.null

/-- Python iteration `for x in v` over a decoded JSON value: lists yield
their elements, strings yield their one-character substrings, dicts yield
their keys, and every other value raises `TypeError` — which the source's
`except` clause does not catch. -/
def pyIterate : Json → Except PyExc (List Json)
  | Json.arr xs => Except.ok xs
  | Json.str s => Except.ok (s.map (fun c => Json.str [c]))
  | Json.obj kvs => Except.ok (kvs.map (fun kv => Json.str kv.1.data))
  | _ => Except.error PyExc.typeError

/-- The `DanaAssertion(...)` built for one entry of the `tests` array.  Each
of the four `test.get(...)` calls raises `AttributeError` unless the entry is
a dict, in which case the named field (or the given default) is stored
unchanged. -/
def mkTest : Json → Except PyExc DanaAssertion
  | Json.obj kvs =>
    Except.ok { line_number := if hasKey kvs "line" then objGet kvs "line" else Json.num 0
                assertion_type := "assert"
                message := if hasKey kvs "message" then objGet kvs "message" else Json.str []
                passed := if hasKey kvs "passed" then objGet kvs "passed" else Json.bool false
                source_line := if hasKey kvs "source" then objGet kvs "source" else Json.str [] }
  | _ => Except.error PyExc.attributeError

/-- The `DanaAssertion(...)` built for one entry of the `logs` array
(`passed` is the literal `True`: logs are informational). -/
def mkLog : Json → Except PyExc DanaAssertion
  | Json.obj kvs =>
    Except.ok { line_number := if hasKey kvs "line" then objGet kvs "line" else Json.num 0
                assertion_type := "log"
                message := if hasKey kvs "message" then objGet kvs "message" else Json.str []
                passed := Json.bool true
                source_line := if hasKey kvs "source" then objGet kvs "source" else Json.str [] }
  | _ => Except.error PyExc.attributeError

/-- The `for` loop appending one assertion per item, stopping at the first
raised exception. -/
def mapExcept {α β : Type} (f : α → Except PyExc β) : List α → Except PyExc (List β)
  | [] => Except.ok []
  | x :: xs =>
    match f x with
    | Except.error e => Except.error e
    | Except.ok b =>
      match mapExcept f xs with
      | Except.error e => Except.error e
      | Except.ok bs => Except.ok (b :: bs)

/-- The `tests` half of `_parse_json_output`. -/
def extractTests (data : List (String × Json)) : Except PyExc (List DanaAssertion) :=
  if hasKey data "tests" then
    match pyIterate (objGet data "tests") with
    | Except.error e => Except.error e
    | Except.ok items => mapExcept mkTest items
  else Except.ok []

/-- The `logs` half of `_parse_json_output`. -/
def extractLogs (data : List (String × Json)) : Except PyExc (List DanaAssertion) :=
  if hasKey data "logs" then
    match pyIterate (objGet data "logs") with
    | Except.error e => Except.error e
    | Except.ok items => mapExcept mkLog items
  else Except.ok []

/-- `DanaAssertionParser._parse_json_output`: locate the first `{`, decode
from there, and collect the `tests` then the `logs` assertions.  `ok none`
is Python's `None` (no `{`, or a decode error, both handled in the source);
an uncaught `TypeError`/`AttributeError` is `error`. -/
def parseJsonOutput (loads : JsonOracle) (output : List Char) :
    Except PyExc (Option (List DanaAssertion)) :=
  match idxOfChar '{' output with
  | none => Except.ok none
  | some i =>
    match loads (output.drop i) with
    | none => Except.ok none
    | some data =>
      match extractTests data with
      | Except.error e => Except.error e
      | Except.ok ts =>
        match extractLogs data with
        | Except.error e => Except.error e
        | Except.ok ls => Except.ok (some (ts ++ ls))

/-- `DanaAssertionParser.parse_output`.  Python's `if json_assertions:` is a
truthiness test, so both `None` and an empty list fall through to text mode;
error-text parsing runs only when `error_output` is non-empty, and the
generic fallback only when nothing was collected at all. -/
def parse_output (loads : JsonOracle) (output : List Char)
    (errorOutput : List Char := []) : Except PyExc (List DanaAssertion) :=
  match parseJsonOutput loads output with
  | Except.error e => Except.error e
  | Except.ok (some (a :: rest)) => Except.ok (a :: rest)
  | Except.ok _ =>
    let assertions :=
      parseTextOutput output ++
        (if errorOutput.isEmpty then [] else parseErrorOutput errorOutput)
    if assertions.isEmpty then Except.ok (parseGenericResults output)
    else Except.ok assertions

/-! The executor's success flag and the spec's result classifier. -/

/-- The success computation of `DanaTestExecutor.run_dana_file`
(`src/datest/executor.py`, line 79): `success = result.returncode == 0`.
The parsed assertions play no part in it. -/
def run_dana_file_success (returncode : Int) : Bool :=
  returncode == 0

/-- Python `a.passed == False` on a spec-level assertion, whose `passed`
field is a boolean. -/
def passedIsFalse (a : DanaAssertion) : Bool :=
  match a.passed with
  | Json.bool b => !b
  | _ => false

/-- Modelled from the spec: the Result Classifier of spec section 4.2 does
not appear under `src/` — `executor.py` derives `success` from the exit code
alone, while the unit tests (`tests/unit/test_executor.py`) exercise an
executor that also consults the parsed assertions.  Following the spec's
words: `success = (exit_code == 0) AND NOT (any assertion with kind ==
"assert" has passed == false)`. -/
def classify (exit_code : Int) (assertions : List DanaAssertion) : Bool :=
  (exit_code == 0) &&
    !(assertions.any (fun a => a.assertion_type == "assert" && passedIsFalse a))

/-! Concrete inputs and oracles used by witnesses and counterexamples.  Each
oracle fixes the value of `json.loads` on the one document it is used with,
exactly as Python's decoder would produce it, and rejects everything else. -/

/-- An oracle for runs whose output contains no decodable JSON document. -/
def noJson : JsonOracle := fun _ => none

/-- The scenario input of the spec: two indicator lines and an `Error:` line,
all on standard output. -/
def out5Text : String := "✅ Test 1 passed\n❌ Test 2 failed\nError: Assertion failed at line 15"

/-- An assert-kind assertion that failed, as text-mode parsing of
`"❌ Test 2 failed"` produces it. -/
def assertFailedSample : DanaAssertion :=
  { line_number := Json.num 2
    assertion_type := "assert"
    message := Json.str ("❌ Test 2 failed").data
    passed := Json.bool false
    source_line := Json.null }

/-- An error-kind assertion, as stderr parsing of `"Error: boom"` produces
it. -/
def errorFailedSample : DanaAssertion :=
  { line_number := Json.num 0
    assertion_type := "error"
    message := Json.str ("Error: boom").data
    passed := Json.bool false
    source_line := Json.null }

/-- C1: the classifier rule.  The spec's classify cases hold of the
spec-modelled classifier, but the code computes success from the exit code
alone (`run_dana_file_success`), so exit code 0 together with a failed
assert-kind assertion yields success `true` where the claim — and the
repository's own `test_run_dana_file_with_parsed_assertions` unit test —
demands `false`. -/
theorem C1_success_ignores_assertions :
    run_dana_file_success 0 = true ∧
    classify 0 [assertFailedSample] = false ∧
    classify 0 [] = true ∧
    classify 1 [] = false ∧
    classify 0 [errorFailedSample] = true :=
  ⟨rfl, rfl, rfl, rfl, rfl⟩

/-- C5 counterexample: on the scenario input all three parsed assertions have
kind `assert` — the `Error:` line sits on standard output, where text mode
claims it via the `failed` fail-indicator — so no assertion of kind `error`
is produced, contradicting the claimed 2-assert-plus-1-error split. -/
theorem C5_counterexample :
    (parse_output noJson out5Text.data []).map (List.map DanaAssertion.assertion_type) =
      Except.ok ["assert", "assert", "assert"] ∧
    ("assert" : String) ≠ "error" :=
  ⟨rfl, by decide⟩

/-- C5 amended: parsing the scenario output with empty error text yields
exactly 3 assertions, all of kind `assert` (passed true, false, false; the
`Error:` line is parsed in text mode as a failed assert-kind assertion since
error-kind assertions only arise from error text), and classifying this list
with exit code 1 yields false. -/
theorem C5_amended_scenario :
    parse_output noJson out5Text.data [] = Except.ok
      [{ line_number := Json.num 1, assertion_type := "assert",
         message := Json.str ("✅ Test 1 passed").data,
         passed := Json.bool true, source_line := Json.null },
       { line_number := Json.num 2, assertion_type := "assert",
         message := Json.str ("❌ Test 2 failed").data,
         passed := Json.bool false, source_line := Json.null },
       { line_number := Json.num 3, assertion_type := "assert",
         message := Json.str ("Error: Assertion failed at line 15").data,
         passed := Json.bool false, source_line := Json.null }] ∧
    classify 1
      [{ line_number := Json.num 1, assertion_type := "assert",
         message := Json.str ("✅ Test 1 passed").data,
         passed := Json.bool true, source_line := Json.null },
       { line_number := Json.num 2, assertion_type := "assert",
         message := Json.str ("❌ Test 2 failed").data,
         passed := Json.bool false, source_line := Json.null },
       { line_number := Json.num 3, assertion_type := "assert",
         message := Json.str ("Error: Assertion failed at line 15").data,
         passed := Json.bool false, source_line := Json.null }] = false :=
  ⟨rfl, rfl⟩

/-- Stripping a single leading and a single trailing quote character of
either style, as the claim's words describe the log-message cleanup.  Stated
from the spec for comparison with the source's `strip('"\'')`, which removes
every leading and trailing quote character. -/
def specStripSingleQuote (s : List Char) : List Char :=
  let s1 :=
    match s with
    | [] => ([] : List Char)
    | c :: rest => if c == '"' || c == '\'' then rest else c :: rest
  match s1.reverse with
  | [] => s1
  | c :: rest => if c == '"' || c == '\'' then rest.reverse else s1

/-- Stripping every leading and trailing quote character of either style —
the behaviour of Python's `strip('"\'')` stated in the amended claim's
words. -/
def specStripAllQuotes (s : List Char) : List Char :=
  ((s.dropWhile (fun c => c == '"' || c == '\'')).reverse.dropWhile
    (fun c => c == '"' || c == '\'')).reverse

/-- The log line used to refute the single-quote-strip reading: the message
payload is wrapped in doubled quotes. -/
def cex6Text : String := "log(\"\"Starting tests\"\")"

/-- C6 counterexample: on `log(""Starting tests"")` the parser's message is
`Starting tests` — Python's `strip('"\'')` removes both quote characters on
each side — while stripping a single leading/trailing quote character, as the
claim states, would leave `"Starting tests"`. -/
theorem C6_counterexample :
    (parse_output noJson cex6Text.data []).map (List.map DanaAssertion.message) =
      Except.ok [Json.str ("Starting tests").data] ∧
    specStripSingleQuote (pyStrip ("\"\"Starting tests\"\"").data) =
      ("\"Starting tests\"").data ∧
    ("Starting tests").data ≠ ("\"Starting tests\"").data :=
  ⟨rfl, rfl, by decide⟩

/-- The source's `strip('"\'')` coincides with stripping all leading and
trailing quote characters of either style. -/
theorem pyStripChars_quotes_eq (s : List Char) :
    pyStripChars ['"', '\''] s = specStripAllQuotes s := by
  unfold pyStripChars specStripAllQuotes
  have hfun : (fun c => (['"', '\''] : List Char).contains c) =
      (fun c => c == '"' || c == '\'') := by
    funext c
    show (c == '"' || (c == '\'' || false)) = (c == '"' || c == '\'')
    rw [Bool.or_false]
  rw [hfun]

/-- C6 amended: for every line containing the substring `log(`, the log
parser emits one log-kind assertion with `passed = true`; when the last `)`
lies beyond the first `log(`, its message is the substring between them,
trimmed and stripped of ALL leading and trailing quote characters of either
style (Python's `strip('"\'')`), not just a single one. -/
theorem C6_log_extraction (line : List Char) (n : Nat)
    (h : containsSub line (("log(").data) = true) :
    ∃ a, parseLogLine line n = some a ∧
      a.assertion_type = "log" ∧
      a.passed = Json.bool true ∧
      a.line_number = Json.num (n : Nat) ∧
      ∀ start stop : Int, pyFind line (("log(").data) + 4 = start →
        pyRfindChar ')' line = stop →
        stop > start →
        a.message = Json.str (specStripAllQuotes
          (pyStrip ((line.drop start.toNat).take (stop - start).toNat))) := by
  unfold parseLogLine
  rw [h]
  simp only [Bool.true_or, if_true]
  refine ⟨_, rfl, rfl, rfl, rfl, ?_⟩
  intro start stop hstart hstop hlt
  subst hstart hstop
  simp only [h, if_true, if_pos hlt]
  rw [pyStripChars_quotes_eq]

/-- C6 witness: the claim's own example `log("Starting tests")` satisfies the
amended statement (a single pair of quotes strips to `Starting tests`). -/
theorem C6_log_extraction_witness :
    containsSub (("log(\"Starting tests\")").data) (("log(").data) = true ∧
    ∃ a, parseLogLine (("log(\"Starting tests\")").data) 1 = some a ∧
      a.assertion_type = "log" ∧
      a.passed = Json.bool true ∧
      a.line_number = Json.num (1 : Nat) ∧
      ∀ start stop : Int,
        pyFind (("log(\"Starting tests\")").data) (("log(").data) + 4 = start →
        pyRfindChar ')' (("log(\"Starting tests\")").data) = stop →
        stop > start →
        a.message = Json.str (specStripAllQuotes
          (pyStrip (((("log(\"Starting tests\")").data).drop start.toNat).take
            (stop - start).toNat))) :=
  ⟨rfl, C6_log_extraction (("log(\"Starting tests\")").data) 1 rfl⟩

/-! Exception safety of the JSON branch. -/

/-- Whether a decoded JSON value is an object (a Python dict). -/
def isObjB : Json → Bool
  | Json.obj _ => true
  | _ => false

/-- A decoded object is safe in field `key` when the field is absent, or is
an array all of whose elements are objects — exactly the shapes on which the
`for`/`.get` code of `_parse_json_output` cannot raise. -/
def jsonFieldSafe (data : List (String × Json)) (key : String) : Bool :=
  if hasKey data key then
    match objGet data key with
    | Json.arr items => items.all isObjB
    | _ => false
  else true

/-- The JSON document `{"tests": 5}` that defeats the parser: it decodes,
but iterating the integer raises an uncaught `TypeError`. -/
def cex2Text : String := "\x7b\"tests\": 5\x7d"

/-- `json.loads` on the counterexample document, exactly as Python's decoder
behaves on it. -/
def loadsTests5 : JsonOracle := fun s =>
  if s == cex2Text.data then some [("tests", Json.num 5)] else none

/-- C2 counterexample: on stdout `{"tests": 5}` the decoded document is a
well-formed object, yet `for test in data["tests"]` iterates the integer `5`
and the raised `TypeError` is not caught by `except (json.JSONDecodeError,
KeyError)`, so `parse_output` raises instead of returning a list. -/
theorem C2_counterexample :
    parse_output loadsTests5 cex2Text.data [] = Except.error PyExc.typeError :=
  rfl

/-- Building an assertion from a `tests` entry succeeds exactly on dicts. -/
theorem mkTest_ok_of_obj (x : Json) (h : isObjB x = true) :
    ∃ b, mkTest x = Except.ok b := by
  cases x with
  | obj kvs => exact ⟨_, rfl⟩
  | null => simp [isObjB] at h
  | bool b => simp [isObjB] at h
  | num n => simp [isObjB] at h
  | str s => simp [isObjB] at h
  | arr elems => simp [isObjB] at h

/-- Building an assertion from a `logs` entry succeeds exactly on dicts. -/
theorem mkLog_ok_of_obj (x : Json) (h : isObjB x = true) :
    ∃ b, mkLog x = Except.ok b := by
  cases x with
  | obj kvs => exact ⟨_, rfl⟩
  | null => simp [isObjB] at h
  | bool b => simp [isObjB] at h
  | num n => simp [isObjB] at h
  | str s => simp [isObjB] at h
  | arr elems => simp [isObjB] at h

/-- The assertion-building loop succeeds when every step does. -/
theorem mapExcept_ok_of_all {α β : Type} (f : α → Except PyExc β) (xs : List α)
    (h : ∀ x ∈ xs, ∃ b, f x = Except.ok b) :
    ∃ ys, mapExcept f xs = Except.ok ys := by
  induction xs with
  | nil => exact ⟨[], rfl⟩
  | cons x xs ih =>
    obtain ⟨b, hb⟩ := h x (List.mem_cons_self x xs)
    obtain ⟨ys, hys⟩ := ih (fun y hy => h y (List.mem_cons_of_mem _ hy))
    exact ⟨b :: ys, by simp [mapExcept, hb, hys]⟩

/-- The `tests` half cannot raise on a safe field. -/
theorem extractTests_ok_of_safe (data : List (String × Json))
    (h : jsonFieldSafe data "tests" = true) :
    ∃ ts, extractTests data = Except.ok ts := by
  unfold jsonFieldSafe at h
  unfold extractTests
  by_cases hk : hasKey data "tests" = true
  · rw [if_pos hk] at h ⊢
    cases hv : objGet data "tests" with
    | null => rw [hv] at h; simp at h
    | bool b => rw [hv] at h; simp at h
    | num n => rw [hv] at h; simp at h
    | str s => rw [hv] at h; simp at h
    | obj kvs => rw [hv] at h; simp at h
    | arr items =>
      rw [hv] at h
      have hall : ∀ x ∈ items, isObjB x = true := by
        intro x hx
        exact List.all_eq_true.mp h x hx
      obtain ⟨ts, hts⟩ := mapExcept_ok_of_all mkTest items
        (fun x hx => mkTest_ok_of_obj x (hall x hx))
      refine ⟨ts, ?_⟩
      simp only [pyIterate]
      exact hts
  · rw [if_neg hk]
    exact ⟨[], rfl⟩

/-- The `logs` half cannot raise on a safe field. -/
theorem extractLogs_ok_of_safe (data : List (String × Json))
    (h : jsonFieldSafe data "logs" = true) :
    ∃ ls, extractLogs data = Except.ok ls := by
  unfold jsonFieldSafe at h
  unfold extractLogs
  by_cases hk : hasKey data "logs" = true
  · rw [if_pos hk] at h ⊢
    cases hv : objGet data "logs" with
    | null => rw [hv] at h; simp at h
    | bool b => rw [hv] at h; simp at h
    | num n => rw [hv] at h; simp at h
    | str s => rw [hv] at h; simp at h
    | obj kvs => rw [hv] at h; simp at h
    | arr items =>
      rw [hv] at h
      have hall : ∀ x ∈ items, isObjB x = true := by
        intro x hx
        exact List.all_eq_true.mp h x hx
      obtain ⟨ls, hls⟩ := mapExcept_ok_of_all mkLog items
        (fun x hx => mkLog_ok_of_obj x (hall x hx))
      refine ⟨ls, ?_⟩
      simp only [pyIterate]
      exact hls
  · rw [if_neg hk]
    exact ⟨[], rfl⟩

/-- The JSON branch returns normally whenever the decoded document (if any)
is safe in both fields. -/
theorem parseJsonOutput_ok (loads : JsonOracle) (output : List Char)
    (h : ∀ i data, idxOfChar '{' output = some i → loads (output.drop i) = some data →
        jsonFieldSafe data "tests" = true ∧ jsonFieldSafe data "logs" = true) :
    ∃ jr, parseJsonOutput loads output = Except.ok jr := by
  cases hidx : idxOfChar '{' output with
  | none => exact ⟨none, by simp only [parseJsonOutput, hidx]⟩
  | some i =>
    cases hload : loads (output.drop i) with
    | none => exact ⟨none, by simp only [parseJsonOutput, hidx, hload]⟩
    | some data =>
      obtain ⟨hsT, hsL⟩ := h i data hidx hload
      obtain ⟨ts, hts⟩ := extractTests_ok_of_safe data hsT
      obtain ⟨ls, hls⟩ := extractLogs_ok_of_safe data hsL
      exact ⟨some (ts ++ ls), by simp only [parseJsonOutput, hidx, hload, hts, hls]⟩

/-- C2 amended: `parse_output` terminates normally and returns a well-formed
list for every input — malformed JSON, empty strings and binary garbage
included — PROVIDED that whenever the JSON document located at the first `{`
decodes, its `tests` and `logs` entries (when present) are arrays of
objects.  Outside that proviso the function can raise (see the
counterexample): the `except` clause catches only decode and key errors. -/
theorem C2_parse_total (loads : JsonOracle) (output errorOutput : List Char)
    (h : ∀ i data, idxOfChar '{' output = some i → loads (output.drop i) = some data →
        jsonFieldSafe data "tests" = true ∧ jsonFieldSafe data "logs" = true) :
    ∃ l, parse_output loads output errorOutput = Except.ok l := by
  obtain ⟨jr, hj⟩ := parseJsonOutput_ok loads output h
  unfold parse_output
  rw [hj]
  match jr with
  | some (a :: rest) => exact ⟨a :: rest, rfl⟩
  | some [] =>
    by_cases hE : (parseTextOutput output ++
        (if errorOutput.isEmpty then [] else parseErrorOutput errorOutput)).isEmpty = true
    · exact ⟨parseGenericResults output, by simp only [hE, if_true]⟩
    · exact ⟨parseTextOutput output ++
        (if errorOutput.isEmpty then [] else parseErrorOutput errorOutput),
        by rw [if_neg hE]⟩
  | none =>
    by_cases hE : (parseTextOutput output ++
        (if errorOutput.isEmpty then [] else parseErrorOutput errorOutput)).isEmpty = true
    · exact ⟨parseGenericResults output, by simp only [hE, if_true]⟩
    · exact ⟨parseTextOutput output ++
        (if errorOutput.isEmpty then [] else parseErrorOutput errorOutput),
        by rw [if_neg hE]⟩

/-- C2 witness: on plain text with no decodable JSON the proviso holds
vacuously and parsing returns normally. -/
theorem C2_parse_total_witness :
    (∀ i data, idxOfChar '{' (("binary garbage \xff\xfe").data) = some i →
        noJson ((("binary garbage \xff\xfe").data).drop i) = some data →
        jsonFieldSafe data "tests" = true ∧ jsonFieldSafe data "logs" = true) ∧
    ∃ l, parse_output noJson (("binary garbage \xff\xfe").data) [] = Except.ok l :=
  ⟨(fun _ _ _ hd => nomatch hd),
   C2_parse_total noJson (("binary garbage \xff\xfe").data) [] (fun _ _ _ hd => nomatch hd)⟩

/-! The JSON short-circuit (C3). -/

/-- The assertion-building loop preserves the array length. -/
theorem mapExcept_ok_length {α β : Type} (f : α → Except PyExc β) (xs : List α)
    (ys : List β) (h : mapExcept f xs = Except.ok ys) : ys.length = xs.length := by
  induction xs generalizing ys with
  | nil =>
    unfold mapExcept at h
    cases h
    rfl
  | cons x xs ih =>
    unfold mapExcept at h
    cases hx : f x with
    | error e => rw [hx] at h; cases h
    | ok b =>
      rw [hx] at h
      cases hxs : mapExcept f xs with
      | error e => rw [hxs] at h; cases h
      | ok bs =>
        rw [hxs] at h
        cases h
        simp [ih bs hxs]

/-- C3: when the document at the first `{` decodes and its `tests`/`logs`
extraction yields a non-empty assertion list, `parse_output` returns exactly
that list — tests first, then logs, with total count `len(tests)+len(logs)`
— for EVERY error text, which is therefore never parsed in this path; any
plain text before the `{` only shifts where the decoded slice starts. -/
theorem C3_json_short_circuit (loads : JsonOracle) (output errorOutput : List Char)
    (i : Nat) (data : List (String × Json)) (ts ls : List DanaAssertion)
    (h1 : idxOfChar '{' output = some i)
    (h2 : loads (output.drop i) = some data)
    (h3 : extractTests data = Except.ok ts)
    (h4 : extractLogs data = Except.ok ls)
    (h5 : ts ++ ls ≠ []) :
    parse_output loads output errorOutput = Except.ok (ts ++ ls) ∧
    (∀ tItems lItems, hasKey data "tests" = true → objGet data "tests" = Json.arr tItems →
        hasKey data "logs" = true → objGet data "logs" = Json.arr lItems →
        (ts ++ ls).length = tItems.length + lItems.length) := by
  have hjson : parseJsonOutput loads output = Except.ok (some (ts ++ ls)) := by
    simp only [parseJsonOutput, h1, h2, h3, h4]
  constructor
  · unfold parse_output
    rw [hjson]
    cases hl : ts ++ ls with
    | nil => exact absurd hl h5
    | cons a rest => rfl
  · intro tItems lItems hk1 ha1 hk2 ha2
    have hts : mapExcept mkTest tItems = Except.ok ts := by
      unfold extractTests at h3
      rw [if_pos hk1, ha1] at h3
      simpa only [pyIterate] using h3
    have hls : mapExcept mkLog lItems = Except.ok ls := by
      unfold extractLogs at h4
      rw [if_pos hk2, ha2] at h4
      simpa only [pyIterate] using h4
    rw [List.length_append, mapExcept_ok_length mkTest tItems ts hts,
      mapExcept_ok_length mkLog lItems ls hls]

/-- The example document of the claim. -/
def exC3Text : String :=
  "\x7b\"tests\":[\x7b\"line\":10,\"message\":\"x==5\",\"passed\":true\x7d],\"logs\":[\x7b\"line\":5,\"message\":\"start\"\x7d]\x7d"

/-- Python's decode of the example document. -/
def dataC3 : List (String × Json) :=
  [("tests", Json.arr [Json.obj
      [("line", Json.num 10), ("message", Json.str ("x==5").data), ("passed", Json.bool true)]]),
   ("logs", Json.arr [Json.obj
      [("line", Json.num 5), ("message", Json.str ("start").data)]])]

/-- `json.loads` on the example document, exactly as Python's decoder
behaves on it. -/
def loadsC3 : JsonOracle := fun s => if s == exC3Text.data then some dataC3 else none

/-- The assert-kind assertion extracted from the example's `tests` entry. -/
def a10C3 : DanaAssertion :=
  { line_number := Json.num 10
    assertion_type := "assert"
    message := Json.str ("x==5").data
    passed := Json.bool true
    source_line := Json.str [] }

/-- The log-kind assertion extracted from the example's `logs` entry. -/
def a5C3 : DanaAssertion :=
  { line_number := Json.num 5
    assertion_type := "log"
    message := Json.str ("start").data
    passed := Json.bool true
    source_line := Json.str [] }

/-- C3 witness: the claim's example yields exactly the two assertions with
line numbers 10 and 5, even with a non-empty error text present. -/
theorem C3_json_short_circuit_witness :
    parse_output loadsC3 exC3Text.data (("Error: ignored").data) =
      Except.ok ([a10C3] ++ [a5C3]) ∧
    ([a10C3] ++ [a5C3]).length = 1 + 1 := by
  have h := C3_json_short_circuit loadsC3 exC3Text.data (("Error: ignored").data) 0 dataC3
    [a10C3] [a5C3] rfl rfl rfl rfl (List.cons_ne_nil _ _)
  exact ⟨h.1, h.2
    [Json.obj [("line", Json.num 10), ("message", Json.str ("x==5").data),
      ("passed", Json.bool true)]]
    [Json.obj [("line", Json.num 5), ("message", Json.str ("start").data)]]
    rfl rfl rfl rfl⟩

/-! Indicator precedence in text-mode assertion lines (C4). -/

/-- C4: every line carrying at least one pass or fail indicator is emitted as
an assert-kind assertion whose `passed` flag is "pass indicator present AND
no fail indicator present"; in particular any fail indicator forces
`passed = false` even alongside a pass indicator. -/
theorem C4_indicator_precedence (line : List Char) (n : Nat)
    (h : (hasPassInd line || hasFailInd line) = true) :
    ∃ a, parseAssertionLine line n = some a ∧
      a.assertion_type = "assert" ∧
      a.passed = Json.bool (hasPassInd line && !hasFailInd line) := by
  simp only [parseAssertionLine, h, Bool.not_true, Bool.false_eq_true, if_false]
  cases hs : assertPatternSearch line with
  | some p =>
    obtain ⟨g1, g3⟩ := p
    exact ⟨_, rfl, rfl, rfl⟩
  | none => exact ⟨_, rfl, rfl, rfl⟩

/-- C4 witness: the claim's example line carries both indicator kinds and
comes out failed. -/
theorem C4_indicator_precedence_witness :
    (hasPassInd (("✅ passed but ❌ failed").data) ||
      hasFailInd (("✅ passed but ❌ failed").data)) = true ∧
    (hasPassInd (("✅ passed but ❌ failed").data) &&
      !hasFailInd (("✅ passed but ❌ failed").data)) = false ∧
    ∃ a, parseAssertionLine (("✅ passed but ❌ failed").data) 1 = some a ∧
      a.assertion_type = "assert" ∧
      a.passed = Json.bool (hasPassInd (("✅ passed but ❌ failed").data) &&
        !hasFailInd (("✅ passed but ❌ failed").data)) :=
  ⟨rfl, rfl, C4_indicator_precedence (("✅ passed but ❌ failed").data) 1 rfl⟩

/-! Error-text parsing (C7) and the generic fallback (C8). -/

/-- C7: when the JSON branch did not short-circuit, each non-blank stderr
line yields an error-kind failed assertion — with the matched line number
(default 0) and `"<ErrorType>: <message>"` when ERROR_PATTERN matches, and
with line 0 and the whole stripped line when the line merely contains
`Error` or `Exception` — and the whole error batch is appended after every
text-mode assertion. -/
theorem C7_error_text_parsing (loads : JsonOracle) (output errorOutput : List Char)
    (hjson : parseJsonOutput loads output = Except.ok none ∨
      parseJsonOutput loads output = Except.ok (some [])) :
    (∀ line a, parseErrorLine line = some a →
        a.assertion_type = "error" ∧ a.passed = Json.bool false ∧
        (∀ g1 et g3, errorPatternSearch (pyStrip line) = some (g1, et, g3) →
          a.line_number = Json.num ((g1.getD 0 : Nat) : Int) ∧
          a.message = Json.str (et.data ++ (": ").data ++ pyStrip g3)) ∧
        (errorPatternSearch (pyStrip line) = none →
          a.line_number = Json.num 0 ∧ a.message = Json.str (pyStrip line) ∧
          (containsSub (pyStrip line) (("Error").data) ||
            containsSub (pyStrip line) (("Exception").data)) = true)) ∧
    parseErrorOutput errorOutput = (splitNl errorOutput).filterMap parseErrorLine ∧
    (errorOutput.isEmpty = false →
      parseTextOutput output ++ parseErrorOutput errorOutput ≠ [] →
      parse_output loads output errorOutput =
        Except.ok (parseTextOutput output ++ parseErrorOutput errorOutput)) := by
  refine ⟨?_, rfl, ?_⟩
  · intro line a hline
    unfold parseErrorLine at hline
    by_cases hE : (pyStrip line).isEmpty = true
    · rw [if_pos hE] at hline
      cases hline
    · rw [if_neg hE] at hline
      cases hs : errorPatternSearch (pyStrip line) with
      | some p =>
        obtain ⟨g1, et, g3⟩ := p
        rw [hs] at hline
        cases hline
        refine ⟨rfl, rfl, ?_, ?_⟩
        · intro g1' et' g3' hs'
          simp only [Option.some.injEq, Prod.mk.injEq] at hs'
          obtain ⟨e1, e2, e3⟩ := hs'
          subst e1
          subst e2
          subst e3
          exact ⟨rfl, rfl⟩
        · intro h0
          cases h0
      | none =>
        rw [hs] at hline
        by_cases hc : (containsSub (pyStrip line) (("Error").data) ||
            containsSub (pyStrip line) (("Exception").data)) = true
        · rw [if_pos hc] at hline
          cases hline
          refine ⟨rfl, rfl, ?_, ?_⟩
          · intro g1' et' g3' hs'
            cases hs'
          · intro _
            exact ⟨rfl, rfl, hc⟩
        · rw [if_neg hc] at hline
          cases hline
  · intro hne hcomb
    have hfalse : ¬ ((parseTextOutput output ++ parseErrorOutput errorOutput).isEmpty = true) := by
      intro hx
      exact hcomb (List.isEmpty_iff.mp hx)
    unfold parse_output
    rcases hjson with hj | hj
    · rw [hj]
      simp only [hne, Bool.false_eq_true, if_false]
      rw [if_neg hfalse]
    · rw [hj]
      simp only [hne, Bool.false_eq_true, if_false]
      rw [if_neg hfalse]

/-- C7 witness: a single well-shaped stderr line with a line number. -/
theorem C7_error_text_parsing_witness :
    (parseJsonOutput noJson [] = Except.ok none ∨
      parseJsonOutput noJson [] = Except.ok (some [])) ∧
    (("Line 3: Error: boom").data).isEmpty = false ∧
    parse_output noJson [] (("Line 3: Error: boom").data) = Except.ok
      (parseTextOutput [] ++ parseErrorOutput (("Line 3: Error: boom").data)) ∧
    parseErrorOutput (("Line 3: Error: boom").data) =
      [{ line_number := Json.num 3
         assertion_type := "error"
         message := Json.str (("Error: boom").data)
         passed := Json.bool false
         source_line := Json.null }] :=
  ⟨Or.inl rfl, rfl,
   (C7_error_text_parsing noJson [] (("Line 3: Error: boom").data) (Or.inl rfl)).2.2
     rfl (List.cons_ne_nil _ _),
   rfl⟩

/-- C8: when the JSON branch fell through, text mode found nothing and the
error text contributed nothing, `parse_output` returns exactly the generic
fallback: one synthetic passed `result` when a pass indicator occurs in
stdout (checked first), else one failed `result` when a fail indicator
occurs, else the empty sequence. -/
theorem C8_generic_fallback (loads : JsonOracle) (output errorOutput : List Char)
    (hjson : parseJsonOutput loads output = Except.ok none ∨
      parseJsonOutput loads output = Except.ok (some []))
    (htext : parseTextOutput output = [])
    (herr : errorOutput = [] ∨ parseErrorOutput errorOutput = []) :
    parse_output loads output errorOutput = Except.ok (parseGenericResults output) ∧
    (hasPassInd output = true → parseGenericResults output =
      [{ line_number := Json.num 0, assertion_type := "result",
         message := Json.str (("Test passed").data), passed := Json.bool true,
         source_line := Json.null }]) ∧
    (hasPassInd output = false → hasFailInd output = true → parseGenericResults output =
      [{ line_number := Json.num 0, assertion_type := "result",
         message := Json.str (("Test failed").data), passed := Json.bool false,
         source_line := Json.null }]) ∧
    (hasPassInd output = false → hasFailInd output = false →
      parseGenericResults output = []) := by
  have hass : parseTextOutput output ++
      (if errorOutput.isEmpty = true then [] else parseErrorOutput errorOutput) = [] := by
    rw [htext]
    rcases herr with hcase | hcase
    · rw [hcase]
      rfl
    · rw [hcase]
      simp
  refine ⟨?_, ?_, ?_, ?_⟩
  · unfold parse_output
    rcases hjson with hj | hj
    · rw [hj, hass]
      rfl
    · rw [hj, hass]
      rfl
  · intro h1
    unfold parseGenericResults
    rw [if_pos h1]
  · intro h1 h2
    unfold parseGenericResults
    rw [if_neg (by rw [h1]; exact Bool.false_ne_true), if_pos h2]
  · intro h1 h2
    unfold parseGenericResults
    rw [if_neg (by rw [h1]; exact Bool.false_ne_true),
      if_neg (by rw [h2]; exact Bool.false_ne_true)]

/-- C8 witness: empty stdout and empty stderr yield the empty assertion
sequence. -/
theorem C8_generic_fallback_witness :
    parse_output noJson [] [] = Except.ok (parseGenericResults []) ∧
    parseGenericResults ([] : List Char) = [] :=
  ⟨(C8_generic_fallback noJson [] [] (Or.inl rfl) rfl (Or.inl rfl)).1, rfl⟩

/-! Where each kind of assertion can come from (used for the invariants C9
and C10). -/

/-- Text-mode assertion lines always carry kind `assert`. -/
theorem parseAssertionLine_kind (line : List Char) (n : Nat) (a : DanaAssertion)
    (h : parseAssertionLine line n = some a) : a.assertion_type = "assert" := by
  unfold parseAssertionLine at h
  by_cases hc : (!(hasPassInd line || hasFailInd line)) = true
  · rw [if_pos hc] at h
    cases h
  · rw [if_neg hc] at h
    cases hs : assertPatternSearch line with
    | some p =>
      obtain ⟨g1, g3⟩ := p
      rw [hs] at h
      cases h
      rfl
    | none =>
      rw [hs] at h
      cases h
      rfl

/-- Log lines always carry kind `log` and `passed = true`. -/
theorem parseLogLine_kind (line : List Char) (n : Nat) (a : DanaAssertion)
    (h : parseLogLine line n = some a) :
    a.assertion_type = "log" ∧ a.passed = Json.bool true := by
  unfold parseLogLine at h
  by_cases hc : (containsSub line (("log(").data) || containsSub line (("log ").data)) = true
  · rw [if_pos hc] at h
    cases h
    exact ⟨rfl, rfl⟩
  · rw [if_neg hc] at h
    cases h

/-- A text-mode line contributes an assert-kind assertion or a passed log. -/
theorem parseTextLine_kind (i : Nat) (line : List Char) (a : DanaAssertion)
    (h : parseTextLine i line = some a) :
    a.assertion_type = "assert" ∨ (a.assertion_type = "log" ∧ a.passed = Json.bool true) := by
  unfold parseTextLine at h
  by_cases hE : (pyStrip line).isEmpty = true
  · rw [if_pos hE] at h
    cases h
  · rw [if_neg hE] at h
    cases hs : parseAssertionLine (pyStrip line) (i + 1) with
    | some b =>
      rw [hs] at h
      cases h
      exact Or.inl (parseAssertionLine_kind _ _ _ hs)
    | none =>
      rw [hs] at h
      exact Or.inr (parseLogLine_kind _ _ _ h)

/-- An error-text line contributes an error-kind failed assertion. -/
theorem parseErrorLine_kind (line : List Char) (a : DanaAssertion)
    (h : parseErrorLine line = some a) :
    a.assertion_type = "error" ∧ a.passed = Json.bool false := by
  unfold parseErrorLine at h
  by_cases hE : (pyStrip line).isEmpty = true
  · rw [if_pos hE] at h
    cases h
  · rw [if_neg hE] at h
    cases hs : errorPatternSearch (pyStrip line) with
    | some p =>
      obtain ⟨g1, et, g3⟩ := p
      rw [hs] at h
      cases h
      exact ⟨rfl, rfl⟩
    | none =>
      rw [hs] at h
      by_cases hc : (containsSub (pyStrip line) (("Error").data) ||
          containsSub (pyStrip line) (("Exception").data)) = true
      · rw [if_pos hc] at h
        cases h
        exact ⟨rfl, rfl⟩
      · rw [if_neg hc] at h
        cases h

/-- A `tests` entry yields kind `assert`. -/
theorem mkTest_kind (t : Json) (b : DanaAssertion) (h : mkTest t = Except.ok b) :
    b.assertion_type = "assert" := by
  cases t with
  | obj kvs => cases h; rfl
  | null => cases h
  | bool x => cases h
  | num x => cases h
  | str x => cases h
  | arr x => cases h

/-- A `logs` entry yields kind `log` with `passed = true`. -/
theorem mkLog_kind (t : Json) (b : DanaAssertion) (h : mkLog t = Except.ok b) :
    b.assertion_type = "log" ∧ b.passed = Json.bool true := by
  cases t with
  | obj kvs => cases h; exact ⟨rfl, rfl⟩
  | null => cases h
  | bool x => cases h
  | num x => cases h
  | str x => cases h
  | arr x => cases h

/-- Every element of a successful loop run comes from one input item. -/
theorem mapExcept_mem {α β : Type} (f : α → Except PyExc β) (xs : List α)
    (ys : List β) (h : mapExcept f xs = Except.ok ys) (b : β) (hb : b ∈ ys) :
    ∃ x ∈ xs, f x = Except.ok b := by
  induction xs generalizing ys with
  | nil =>
    unfold mapExcept at h
    cases h
    cases hb
  | cons x xs ih =>
    unfold mapExcept at h
    cases hx : f x with
    | error e => rw [hx] at h; cases h
    | ok c =>
      rw [hx] at h
      cases hxs : mapExcept f xs with
      | error e => rw [hxs] at h; cases h
      | ok cs =>
        rw [hxs] at h
        cases h
        rcases List.mem_cons.mp hb with hbc | hbc
        · exact ⟨x, List.mem_cons_self x xs, hbc ▸ hx⟩
        · obtain ⟨y, hy, hfy⟩ := ih cs hxs hbc
          exact ⟨y, List.mem_cons_of_mem x hy, hfy⟩

/-- Every assertion of the `tests` half has kind `assert`. -/
theorem extractTests_kind (data : List (String × Json)) (ts : List DanaAssertion)
    (h : extractTests data = Except.ok ts) (a : DanaAssertion) (ha : a ∈ ts) :
    a.assertion_type = "assert" := by
  unfold extractTests at h
  by_cases hk : hasKey data "tests" = true
  · rw [if_pos hk] at h
    cases hv : pyIterate (objGet data "tests") with
    | error e => rw [hv] at h; cases h
    | ok items =>
      rw [hv] at h
      obtain ⟨x, _, hfx⟩ := mapExcept_mem mkTest items ts h a ha
      exact mkTest_kind x a hfx
  · rw [if_neg hk] at h
    cases h
    cases ha

/-- Every assertion of the `logs` half has kind `log` and `passed = true`. -/
theorem extractLogs_kind (data : List (String × Json)) (ls : List DanaAssertion)
    (h : extractLogs data = Except.ok ls) (a : DanaAssertion) (ha : a ∈ ls) :
    a.assertion_type = "log" ∧ a.passed = Json.bool true := by
  unfold extractLogs at h
  by_cases hk : hasKey data "logs" = true
  · rw [if_pos hk] at h
    cases hv : pyIterate (objGet data "logs") with
    | error e => rw [hv] at h; cases h
    | ok items =>
      rw [hv] at h
      obtain ⟨x, _, hfx⟩ := mapExcept_mem mkLog items ls h a ha
      exact mkLog_kind x a hfx
  · rw [if_neg hk] at h
    cases h
    cases ha

/-- Every assertion of the JSON branch is an assert or a passed log. -/
theorem parseJsonOutput_kind (loads : JsonOracle) (output : List Char)
    (L : List DanaAssertion) (h : parseJsonOutput loads output = Except.ok (some L))
    (a : DanaAssertion) (ha : a ∈ L) :
    a.assertion_type = "assert" ∨ (a.assertion_type = "log" ∧ a.passed = Json.bool true) := by
  unfold parseJsonOutput at h
  split at h
  · exact absurd h (by simp)
  · split at h
    · exact absurd h (by simp)
    · rename_i i hidx data hload
      split at h
      · exact absurd h (by simp)
      · rename_i ts hts
        split at h
        · exact absurd h (by simp)
        · rename_i ls hls
          simp only [Except.ok.injEq, Option.some.injEq] at h
          subst h
          rcases List.mem_append.mp ha with hmem | hmem
          · exact Or.inl (extractTests_kind data ts hts a hmem)
          · exact Or.inr (extractLogs_kind data ls hls a hmem)

/-- The generic fallback emits nothing, or one single result-kind entry. -/
theorem parseGenericResults_cases (output : List Char) :
    parseGenericResults output = [] ∨
    ∃ x, parseGenericResults output = [x] ∧ x.assertion_type = "result" := by
  unfold parseGenericResults
  by_cases h1 : hasPassInd output = true
  · rw [if_pos h1]
    exact Or.inr ⟨_, rfl, rfl⟩
  · rw [if_neg h1]
    by_cases h2 : hasFailInd output = true
    · rw [if_pos h2]
      exact Or.inr ⟨_, rfl, rfl⟩
    · rw [if_neg h2]
      exact Or.inl rfl

/-- The three possible shapes of a normal `parse_output` return: the JSON
short-circuit, the text-plus-error concatenation, or the generic fallback. -/
theorem parse_output_shape (loads : JsonOracle) (output errorOutput : List Char)
    (l : List DanaAssertion) (h : parse_output loads output errorOutput = Except.ok l) :
    (∃ L, parseJsonOutput loads output = Except.ok (some L) ∧ l = L) ∨
    (l = parseTextOutput output ++
      (if errorOutput.isEmpty = true then [] else parseErrorOutput errorOutput)) ∨
    l = parseGenericResults output := by
  unfold parse_output at h
  cases hj : parseJsonOutput loads output with
  | error e => rw [hj] at h; cases h
  | ok jr =>
    rw [hj] at h
    cases jr with
    | some L =>
      cases L with
      | cons a rest =>
        simp only [Except.ok.injEq] at h
        exact Or.inl ⟨a :: rest, rfl, h.symm⟩
      | nil =>
        by_cases hE : (parseTextOutput output ++
            (if errorOutput.isEmpty = true then [] else parseErrorOutput errorOutput)).isEmpty = true
        · rw [if_pos hE] at h
          simp only [Except.ok.injEq] at h
          exact Or.inr (Or.inr h.symm)
        · rw [if_neg hE] at h
          simp only [Except.ok.injEq] at h
          exact Or.inr (Or.inl h.symm)
    | none =>
      by_cases hE : (parseTextOutput output ++
          (if errorOutput.isEmpty = true then [] else parseErrorOutput errorOutput)).isEmpty = true
      · rw [if_pos hE] at h
        simp only [Except.ok.injEq] at h
        exact Or.inr (Or.inr h.symm)
      · rw [if_neg hE] at h
        simp only [Except.ok.injEq] at h
        exact Or.inr (Or.inl h.symm)

/-- Classification of every member of a normal `parse_output` return: it is
an assert, a passed log, a failed error, or a result that is the sole
element. -/
theorem parse_output_member_kind (loads : JsonOracle) (output errorOutput : List Char)
    (l : List DanaAssertion) (h : parse_output loads output errorOutput = Except.ok l)
    (a : DanaAssertion) (ha : a ∈ l) :
    a.assertion_type = "assert" ∨
    (a.assertion_type = "log" ∧ a.passed = Json.bool true) ∨
    (a.assertion_type = "error" ∧ a.passed = Json.bool false) ∨
    (a.assertion_type = "result" ∧ l = [a]) := by
  rcases parse_output_shape loads output errorOutput l h with ⟨L, hL, hEq⟩ | hshape | hshape
  · subst hEq
    rcases parseJsonOutput_kind loads output l hL a ha with hk | hk
    · exact Or.inl hk
    · exact Or.inr (Or.inl hk)
  · subst hshape
    rcases List.mem_append.mp ha with hmem | hmem
    · obtain ⟨p, _, hp⟩ := List.mem_filterMap.mp hmem
      rcases parseTextLine_kind p.1 p.2 a hp with hk | hk
      · exact Or.inl hk
      · exact Or.inr (Or.inl hk)
    · by_cases hne : errorOutput.isEmpty = true
      · rw [if_pos hne] at hmem
        cases hmem
      · rw [if_neg hne] at hmem
        obtain ⟨line, _, hp⟩ := List.mem_filterMap.mp hmem
        exact Or.inr (Or.inr (Or.inl (parseErrorLine_kind line a hp)))
  · subst hshape
    rcases parseGenericResults_cases output with hg | ⟨x, hg, hx⟩
    · rw [hg] at ha
      cases ha
    · rw [hg] at ha
      rcases List.mem_singleton.mp ha with rfl
      exact Or.inr (Or.inr (Or.inr ⟨hx, hg⟩))

/-- C9: every assertion in any normal `parse_output` return satisfies the
invariant `kind == "log"` implies `passed == true` and `kind == "error"`
implies `passed == false`. -/
theorem C9_log_error_invariant (loads : JsonOracle) (output errorOutput : List Char)
    (l : List DanaAssertion) (h : parse_output loads output errorOutput = Except.ok l) :
    ∀ a ∈ l, (a.assertion_type = "log" → a.passed = Json.bool true) ∧
      (a.assertion_type = "error" → a.passed = Json.bool false) := by
  intro a ha
  rcases parse_output_member_kind loads output errorOutput l h a ha with
    hk | ⟨hk, hp⟩ | ⟨hk, hp⟩ | ⟨hk, _⟩
  · constructor
    · intro hx
      rw [hk] at hx
      exact absurd hx (by decide)
    · intro hx
      rw [hk] at hx
      exact absurd hx (by decide)
  · refine ⟨fun _ => hp, fun hx => ?_⟩
    rw [hk] at hx
    exact absurd hx (by decide)
  · refine ⟨fun hx => ?_, fun _ => hp⟩
    rw [hk] at hx
    exact absurd hx (by decide)
  · constructor
    · intro hx
      rw [hk] at hx
      exact absurd hx (by decide)
    · intro hx
      rw [hk] at hx
      exact absurd hx (by decide)

/-- The log assertion parsed from `log("x")`. -/
def logXSample : DanaAssertion :=
  { line_number := Json.num 1
    assertion_type := "log"
    message := Json.str ['x']
    passed := Json.bool true
    source_line := Json.null }

/-- C9 witness: a concrete run producing one log assertion. -/
theorem C9_log_error_invariant_witness :
    parse_output noJson (("log(\"x\")").data) [] = Except.ok [logXSample] ∧
    ((logXSample.assertion_type = "log" → logXSample.passed = Json.bool true) ∧
     (logXSample.assertion_type = "error" → logXSample.passed = Json.bool false)) :=
  ⟨rfl, C9_log_error_invariant noJson (("log(\"x\")").data) [] [logXSample] rfl
    logXSample (List.Mem.head _)⟩

/-- C10: a normal `parse_output` return contains at most one result-kind
assertion, and a result-kind assertion is always the sole element of the
returned list. -/
theorem C10_result_sole (loads : JsonOracle) (output errorOutput : List Char)
    (l : List DanaAssertion) (h : parse_output loads output errorOutput = Except.ok l) :
    l.countP (fun a => a.assertion_type == "result") ≤ 1 ∧
    ∀ a ∈ l, a.assertion_type = "result" → l = [a] := by
  have hsole : ∀ a ∈ l, a.assertion_type = "result" → l = [a] := by
    intro a ha hres
    rcases parse_output_member_kind loads output errorOutput l h a ha with
      hk | ⟨hk, _⟩ | ⟨hk, _⟩ | ⟨_, hl⟩
    · rw [hres] at hk
      exact absurd hk (by decide)
    · rw [hres] at hk
      exact absurd hk (by decide)
    · rw [hres] at hk
      exact absurd hk (by decide)
    · exact hl
  refine ⟨?_, hsole⟩
  by_cases hex : ∃ a ∈ l, a.assertion_type = "result"
  · obtain ⟨a, ha, hres⟩ := hex
    rw [hsole a ha hres]
    have hlen := List.countP_le_length (l := [a]) (p := fun x => x.assertion_type == "result")
    simpa using hlen
  · have h0 : ∀ a ∈ l, ¬((fun x => x.assertion_type == "result") a = true) := by
      intro a ha hx
      exact hex ⟨a, ha, by simpa using hx⟩
    rw [List.countP_eq_zero.mpr h0]
    exact Nat.zero_le 1

/-- The assert assertion parsed from `✅ done`. -/
def passDoneSample : DanaAssertion :=
  { line_number := Json.num 1
    assertion_type := "assert"
    message := Json.str (("✅ done").data)
    passed := Json.bool true
    source_line := Json.null }

/-- C10 witness: a concrete run with one assert-kind assertion, hence zero
result-kind assertions. -/
theorem C10_result_sole_witness :
    parse_output noJson (("✅ done").data) [] = Except.ok [passDoneSample] ∧
    ([passDoneSample].countP (fun a => a.assertion_type == "result") ≤ 1 ∧
     ∀ a ∈ [passDoneSample], a.assertion_type = "result" → [passDoneSample] = [a]) :=
  ⟨rfl, C10_result_sole noJson (("✅ done").data) [] [passDoneSample] rfl⟩

end Datest
